import Mathlib

/-!
Verification of the image-generation pipeline (client.py and
search_service.py): a shallow embedding of the transport client, the
orchestration service, the download-and-save step, the prompt validator,
the quality-options factory and the safe-filename rule, together with
theorems settling the specification claims. Effectful code is embedded by
threading an explicit `World` (provider behaviour, HTTP download endpoint,
filesystem outcomes, wall clock) and by returning the list of observable
effects each call performs, so that statements such as "rejects before any
network call" become statements about the effect trace.
-/

/- ===== Python string primitives (ASCII fragment) ===== -/

/-- Python whitespace class for the purposes of str.strip and the regex
class used by the filename rule. -/
def pyIsSpace (c : Char) : Bool :=
  c = ' ' || c = '\t' || c = '\n' || c = '\r' || c = Char.ofNat 11 || c = Char.ofNat 12

/-- Python str.lower on the ASCII fragment. -/
def pyLower (s : String) : String :=
  String.mk (s.data.map Char.toLower)

/-- Python str.strip: remove leading and trailing whitespace. -/
def pyStrip (s : String) : String :=
  String.mk (((s.data.dropWhile pyIsSpace).reverse.dropWhile pyIsSpace).reverse)

/-- Auxiliary for `strContains`: is `needle` an infix of the second list. -/
def containsAux (needle : List Char) : List Char → Bool
  | [] => needle.isEmpty
  | c :: cs => needle.isPrefixOf (c :: cs) || containsAux needle cs

/-- Python substring test: `needle in hay`. -/
def strContains (hay needle : String) : Bool :=
  containsAux needle.data hay.data

/-- Python truthiness of an optional string: None and the empty string are
falsy. -/
def strTruthy : Option String → Bool
  | none => false
  | some s => !s.isEmpty

/-- Python os.path.dirname on POSIX paths: everything before the last
slash, with trailing slashes stripped unless the head is all slashes. -/
def posixDirname (p : String) : String :=
  let rev := p.data.reverse
  let head := rev.dropWhile (fun c => c ≠ '/')
  if head.all (fun c => c = '/') then String.mk head.reverse
  else String.mk ((head.dropWhile (fun c => c = '/')).reverse)

/-- Python os.path.join for the shapes this code uses (second component is
a bare filename, never absolute). -/
def os_path_join (a b : String) : String :=
  if a.data.isEmpty then b
  else if a.data.getLast? = some '/' then a ++ b
  else a ++ "/" ++ b

/- ===== Wall clock ===== -/

/-- A wall-clock reading, as the fields datetime.now() exposes that
strftime("%Y%m%d_%H%M%S") consumes. -/
structure PyDateTime where
  year : Nat
  month : Nat
  day : Nat
  hour : Nat
  minute : Nat
  second : Nat
deriving DecidableEq

/-- Zero-pad a numeral to two digits, as strftime %m %d %H %M %S do. -/
def pad2 (k : Nat) : String :=
  if k < 10 then "0" ++ toString k else toString k

/-- Zero-pad a numeral to four digits, as strftime %Y does. -/
def pad4 (k : Nat) : String :=
  if k < 10 then "000" ++ toString k
  else if k < 100 then "00" ++ toString k
  else if k < 1000 then "0" ++ toString k
  else toString k

/-- strftime("%Y%m%d_%H%M%S"). -/
def strftime_Ymd_HMS (t : PyDateTime) : String :=
  pad4 t.year ++ pad2 t.month ++ pad2 t.day ++ "_" ++
    pad2 t.hour ++ pad2 t.minute ++ pad2 t.second

/- ===== Data model (models.py is not among the given sources; shapes
follow spec sections 3 and 6) ===== -/

/-- Options for one generation request: model, size, response format,
count, and the optional quality and style fields. -/
structure ImageOptions where
  model : String
  size : String
  response_format : String
  n : Nat
  quality : Option String
  style : Option String
deriving DecidableEq

/-- Modelled from the spec: the ImageOptions dataclass defaults (models.py
is not among the given sources). Spec section 4.1 prescribes a baseline
model/size/format/count when options are absent, section 6 lists the
request fields, and section 3 makes quality and style optional, hence
absent by default. -/
def defaultImageOptions : ImageOptions :=
  { model := "dall-e-3", size := "1024x1024", response_format := "url",
    n := 1, quality := none, style := none }

/-- A structured failure: closed code, human message, diagnostic details
as a key-value mapping. -/
structure ImageError where
  code : String
  message : String
  details : List (String × String)
deriving DecidableEq

/-- The two failure channels Python exposes here: ValueError (invalid
argument) and the structured ImageError. -/
inductive Err where
  | valueError (msg : String)
  | imageError (e : ImageError)
deriving DecidableEq

/-- One entry of the raw provider response, already in the generic mapping
shape _response_to_dict produces: fields present only when the provider
object carries them. -/
structure RawImage where
  url : Option String
  b64_json : Option String
  revised_prompt : Option String
deriving DecidableEq

/-- The raw provider response as a generic mapping: created counter and
the per-image entries. -/
structure RawResponse where
  created : Nat
  data : List RawImage
deriving DecidableEq

/-- The normalized result of a generation, enriched in place by the
download step. -/
structure ImageResult where
  generation_id : String
  image_url : Option String
  b64_json : Option String
  revised_prompt : Option String
  file_path : Option String
  image_data : Option (List Nat)
  created : Nat
deriving DecidableEq

/-- Stand-in for Python str(result), used only as opaque diagnostic text
inside error details. -/
def ImageResult.describe (r : ImageResult) : String :=
  "ImageResult(generation_id=" ++ r.generation_id ++ ")"

/- ===== The world: provider, download endpoint, filesystem, clock ===== -/

/-- The request payload sent to the provider. The optional fields model
the presence or absence of the quality and style keys in the payload
dictionary. -/
structure Payload where
  model : String
  prompt : String
  size : String
  response_format : String
  n : Nat
  quality : Option String
  style : Option String
deriving DecidableEq

/-- What the provider call does, classified by the except clause of
client.generate_image that would catch it: success, AuthenticationError,
RateLimitError, APIError, or any other exception. -/
inductive ProviderOutcome where
  | success (resp : RawResponse)
  | authFail (msg : String)
  | rateLimitFail (msg : String)
  | apiFail (msg : String)
  | unexpectedFail (msg : String)
deriving DecidableEq

/-- Outcome of one HTTP GET: a 2xx body, a non-success status (for which
raise_for_status raises a RequestException), or a network failure (also a
RequestException). -/
inductive HttpOutcome where
  | ok (body : List Nat)
  | badStatus (msg : String)
  | netFail (msg : String)
deriving DecidableEq

/-- The observable effects a call performs, in order. -/
inductive Effect where
  | apiCall (payload : Payload)
  | httpGet (url : String)
  | mkdirp (dir : String)
  | fileWrite (path : String) (data : List Nat)
deriving DecidableEq

/-- The environment a run executes against: provider behaviour as a
function of the payload, download endpoint behaviour per url, filesystem
failures for directory creation and file writes (an error message when the
operation fails), and the wall clock. -/
structure World where
  provider : Payload → ProviderOutcome
  httpGet : String → HttpOutcome
  mkdirFail : String → Option String
  writeFail : String → Option String
  now : PyDateTime

/- ===== Transport client (client.py) ===== -/

/-- Embedding of ImageGenerationClient._construct_payload: base fields
always; quality and style only for dall-e-3 and only when truthy on the
options object. -/
def ImageGenerationClient._construct_payload (prompt : String) (options : ImageOptions) : Payload :=
  { model := options.model
    prompt := prompt
    size := options.size
    response_format := options.response_format
    n := options.n
    quality := if options.model = "dall-e-3" && strTruthy options.quality then options.quality else none
    style := if options.model = "dall-e-3" && strTruthy options.style then options.style else none }

/-- Embedding of ImageGenerationClient.generate_image: prompt checks, the
single provider call, and the mapping of provider failures onto the closed
ImageError taxonomy. The effect list records the provider call when it was
issued. -/
def ImageGenerationClient.generate_image (w : World) (prompt : String)
    (options : Option ImageOptions) : Except Err RawResponse × List Effect :=
  if prompt.data.isEmpty || (pyStrip prompt).data.isEmpty then
    (.error (.valueError "Prompt cannot be empty"), [])
  else if prompt.length > 4000 then
    (.error (.valueError "Prompt too long (max 4000 characters)"), [])
  else
    let opts := options.getD defaultImageOptions
    let payload := ImageGenerationClient._construct_payload prompt opts
    match w.provider payload with
    | .success resp => (.ok resp, [.apiCall payload])
    | .authFail msg =>
        (.error (.imageError
          { code := "AUTHENTICATION_ERROR"
            message := "Invalid API key or authentication failed"
            details := [("original_error", msg)] }), [.apiCall payload])
    | .rateLimitFail msg =>
        (.error (.imageError
          { code := "RATE_LIMIT_ERROR"
            message := "API rate limit exceeded"
            details := [("original_error", msg)] }), [.apiCall payload])
    | .apiFail msg =>
        if strContains (pyLower msg) "content policy" || strContains (pyLower msg) "safety" then
          (.error (.imageError
            { code := "CONTENT_POLICY_ERROR"
              message := "Prompt violates OpenAI's content policy"
              details := [("original_error", msg)] }), [.apiCall payload])
        else
          (.error (.imageError
            { code := "API_ERROR"
              message := "API request failed: " ++ msg
              details := [("original_error", msg)] }), [.apiCall payload])
    | .unexpectedFail msg =>
        (.error (.imageError
          { code := "UNKNOWN_ERROR"
            message := "Unexpected error: " ++ msg
            details := [("original_error", msg)] }), [.apiCall payload])

/- ===== Response parser (parser.py is not among the given sources) ===== -/

/-- Modelled from the spec: the response parser (parser.py is not among the
given sources). Spec section 4.2 treats it as parse(raw_mapping,
original_prompt) -> ImageResult; section 3 says the parser creates the
ImageResult from the raw response and that every result the service hands
back has image_url or the base64 payload populated, so parsing fails (with
an ordinary exception, which the service then wraps) when the response has
no image entry or its first entry carries neither field. The generation id
is provider- or locally assigned per section 3; we model a locally derived
one. -/
def ImageResponseParser.parse (raw : RawResponse) (_prompt : String) : Except Err ImageResult :=
  match raw.data with
  | [] => .error (.valueError "No image data in response")
  | img :: _ =>
    if img.url = none && img.b64_json = none then
      .error (.valueError "Response contains neither url nor b64_json")
    else
      .ok { generation_id := "gen-" ++ toString raw.created
            image_url := img.url
            b64_json := img.b64_json
            revised_prompt := img.revised_prompt
            file_path := none
            image_data := none
            created := raw.created }

/- ===== Orchestration service (search_service.py) ===== -/

/-- The fixed denylist of validate_prompt. -/
def problematic_terms : List String := ["violence", "gore", "explicit"]

/-- Embedding of ImageGenerationService.validate_prompt. -/
def ImageGenerationService.validate_prompt (prompt : String) : Bool :=
  if prompt.data.isEmpty then false
  else if (pyStrip prompt).data.isEmpty then false
  else if prompt.length > 4000 then false
  else if problematic_terms.any (fun term => strContains (pyLower prompt) term) then false
  else true

/-- Word characters of the regex class backslash-w on the ASCII fragment:
letters, digits and the underscore. -/
def isWordChar (c : Char) : Bool :=
  c.isAlphanum || c = '_'

/-- Collapse each maximal run of hyphen/whitespace characters into one
underscore (the re.sub of the pattern [-\s]+ with _); the boolean records
whether we stand inside such a run. -/
def collapseRuns (inRun : Bool) : List Char → List Char
  | [] => []
  | c :: cs =>
    if pyIsSpace c || c = '-' then
      (if inRun then [] else ['_']) ++ collapseRuns true cs
    else c :: collapseRuns false cs

/-- Python str.rstrip applied with the underscore. -/
def rstripUnderscore (l : List Char) : List Char :=
  (l.reverse.dropWhile (fun c => c = '_')).reverse

/-- Embedding of ImageGenerationService._generate_safe_filename: lowercase,
drop every character outside the class word/whitespace/hyphen, collapse
hyphen/whitespace runs to single underscores, truncate to 50 characters
(trimming trailing underscores when a truncation happened), then glue on
the formatted timestamp and the generation id. -/
def ImageGenerationService._generate_safe_filename (prompt generation_id : String)
    (now : PyDateTime) : String :=
  let lowered := prompt.data.map Char.toLower
  let clean1 := lowered.filter (fun c => isWordChar c || pyIsSpace c || c = '-')
  let clean2 := collapseRuns false clean1
  let clean3 := if clean2.length > 50 then rstripUnderscore (clean2.take 50) else clean2
  String.mk clean3 ++ "_" ++ strftime_Ymd_HMS now ++ "_" ++ generation_id ++ ".png"

/-- Embedding of ImageGenerationService.download_and_save_image. Python
mutates the passed result in place and raises on failure; we return the
outcome, the state of the (aliased) result object after the call, and the
effects performed: the GET when issued, the directory creation and the
file write when they succeeded. -/
def ImageGenerationService.download_and_save_image (w : World) (result : ImageResult)
    (save_path : String) : Except ImageError Unit × ImageResult × List Effect :=
  if strTruthy result.image_url = false then
    (.error
      { code := "DOWNLOAD_ERROR"
        message := "No image URL available for download"
        details := [("result", result.describe)] }, result, [])
  else
    match result.image_url with
    | none =>
      (.error
        { code := "DOWNLOAD_ERROR"
          message := "No image URL available for download"
          details := [("result", result.describe)] }, result, [])
    | some url =>
      match w.httpGet url with
      | .badStatus msg =>
        (.error
          { code := "DOWNLOAD_ERROR"
            message := "Failed to download image: " ++ msg
            details := [("url", url), ("error", msg)] }, result, [.httpGet url])
      | .netFail msg =>
        (.error
          { code := "DOWNLOAD_ERROR"
            message := "Failed to download image: " ++ msg
            details := [("url", url), ("error", msg)] }, result, [.httpGet url])
      | .ok body =>
        let result1 := { result with image_data := some body }
        match w.mkdirFail (posixDirname save_path) with
        | some msg =>
          (.error
            { code := "SAVE_ERROR"
              message := "Failed to save image: " ++ msg
              details := [("save_path", save_path), ("error", msg)] },
           result1, [.httpGet url])
        | none =>
          match w.writeFail save_path with
          | some msg =>
            (.error
              { code := "SAVE_ERROR"
                message := "Failed to save image: " ++ msg
                details := [("save_path", save_path), ("error", msg)] },
             result1, [.httpGet url, .mkdirp (posixDirname save_path)])
          | none =>
            (.ok (), { result1 with file_path := some save_path },
             [.httpGet url, .mkdirp (posixDirname save_path), .fileWrite save_path body])

/-- The except clauses of ImageGenerationService.generate_image: a
structured ImageError is re-raised unchanged, anything else is wrapped as
GENERATION_FAILED with the original text preserved. -/
def wrapServiceErr : Err → Err
  | .imageError e => .imageError e
  | .valueError msg =>
    .imageError
      { code := "GENERATION_FAILED"
        message := "Image generation failed: " ++ msg
        details := [("original_error", msg)] }

/-- The body of the try block of ImageGenerationService.generate_image:
provider call, parse, and the auto-save step when requested and an image
url is present. -/
def ImageGenerationService.generate_image_body (w : World) (prompt : String)
    (opts : ImageOptions) (auto_save : Bool) (save_dir : String) :
    Except Err ImageResult × List Effect :=
  match ImageGenerationClient.generate_image w prompt (some opts) with
  | (.error e, effs) => (.error e, effs)
  | (.ok raw, effs) =>
    match ImageResponseParser.parse raw prompt with
    | .error e => (.error e, effs)
    | .ok result =>
      if auto_save && strTruthy result.image_url then
        let safe_filename :=
          ImageGenerationService._generate_safe_filename prompt result.generation_id w.now
        let save_path := os_path_join save_dir safe_filename
        match ImageGenerationService.download_and_save_image w result save_path with
        | (.error e, _, effs2) => (.error (.imageError e), effs ++ effs2)
        | (.ok _, r2, effs2) => (.ok r2, effs ++ effs2)
      else (.ok result, effs)

/-- Embedding of ImageGenerationService.generate_image: validation first
(rejecting with a ValueError and no effect), then the try body with its
except clauses. -/
def ImageGenerationService.generate_image (w : World) (prompt : String)
    (options : Option ImageOptions) (auto_save : Bool) (save_dir : String) :
    Except Err ImageResult × List Effect :=
  if ImageGenerationService.validate_prompt prompt = false then
    (.error (.valueError "Invalid prompt: must be non-empty and under 4000 characters"), [])
  else
    let opts := options.getD defaultImageOptions
    let r := ImageGenerationService.generate_image_body w prompt opts auto_save save_dir
    (r.1.mapError wrapServiceErr, r.2)

/-- Embedding of ImageGenerationService.generate_and_save: generate_image
with its default auto_save and save_dir arguments, then an explicit
download-and-save to the given path. -/
def ImageGenerationService.generate_and_save (w : World) (prompt save_path : String)
    (options : Option ImageOptions) : Except Err ImageResult × List Effect :=
  match ImageGenerationService.generate_image w prompt options true "generated_images" with
  | (.error e, effs) => (.error e, effs)
  | (.ok result, effs) =>
    match ImageGenerationService.download_and_save_image w result save_path with
    | (.error e, _, effs2) => (.error (.imageError e), effs ++ effs2)
    | (.ok _, r2, effs2) => (.ok r2, effs ++ effs2)

/-- Embedding of ImageGenerationService.create_options_for_quality.
Fields the Python call leaves out stay at the dataclass defaults of
`defaultImageOptions`. -/
def ImageGenerationService.create_options_for_quality (quality : String) :
    Except Err ImageOptions :=
  if quality = "standard" then
    .ok { defaultImageOptions with
          model := "dall-e-3", size := "1024x1024",
          quality := some "standard", style := some "natural" }
  else if quality = "high" then
    .ok { defaultImageOptions with
          model := "dall-e-3", size := "1024x1024",
          quality := some "hd", style := some "vivid" }
  else if quality = "fast" then
    .ok { defaultImageOptions with
          model := "dall-e-2", size := "512x512" }
  else
    .error (.valueError
      ("Unknown quality level: " ++ quality ++ ". Use 'standard', 'high', or 'fast'"))

/- ===== Spec-side definitions for the filename refinement claim ===== -/

/-- The filename rule exactly as the claim words it: lowercase, strip
every character that is not alphanumeric, whitespace, or hyphen (so an
underscore is stripped too), collapse runs of whitespace/hyphen into a
single underscore, truncate to 50 characters (trimming trailing
underscores when a truncation happened), then append the timestamp and
generation id. -/
def claimed_safe_filename (prompt generation_id : String) (now : PyDateTime) : String :=
  let lowered := prompt.data.map Char.toLower
  let kept := lowered.filter (fun c => c.isAlphanum || pyIsSpace c || c = '-')
  let collapsed := collapseRuns false kept
  let truncated :=
    if collapsed.length > 50 then rstripUnderscore (collapsed.take 50) else collapsed
  String.mk truncated ++ "_" ++ strftime_Ymd_HMS now ++ "_" ++ generation_id ++ ".png"

/-- The filename rule as amended: the kept class is the word characters
(letters, digits, underscore) together with whitespace and the hyphen,
matching the regex class of the source; the rest of the pipeline is the
rule as claimed. -/
def amended_safe_filename (prompt generation_id : String) (now : PyDateTime) : String :=
  let lowered := prompt.data.map Char.toLower
  let kept := lowered.filter (fun c => c.isAlphanum || c = '_' || pyIsSpace c || c = '-')
  let collapsed := collapseRuns false kept
  let truncated :=
    if collapsed.length > 50 then rstripUnderscore (collapsed.take 50) else collapsed
  String.mk truncated ++ "_" ++ strftime_Ymd_HMS now ++ "_" ++ generation_id ++ ".png"

/- ===== Trace helpers and concrete fixtures ===== -/

/-- The paths of the file writes a trace performed, in order. -/
def savedPaths : List Effect → List String
  | [] => []
  | .fileWrite p _ :: rest => p :: savedPaths rest
  | _ :: rest => savedPaths rest

/-- A fixed wall-clock reading used by the concrete runs. -/
def ts2025 : PyDateTime :=
  { year := 2025, month := 1, day := 1, hour := 12, minute := 0, second := 0 }

/-- A provider response with one url-bearing image. -/
def okRaw : RawResponse :=
  { created := 7, data := [{ url := some "http://img/1.png", b64_json := none, revised_prompt := none }] }

/-- A world in which everything succeeds: the provider returns `okRaw`,
downloads return four bytes, and the filesystem never fails. -/
def okWorld : World :=
  { provider := fun _ => .success okRaw
    httpGet := fun _ => .ok [137, 80, 78, 71]
    mkdirFail := fun _ => none
    writeFail := fun _ => none
    now := ts2025 }

/-- A world whose provider raises an authentication failure. -/
def authFailWorld : World :=
  { okWorld with provider := fun _ => .authFail "bad key" }

/-- A world whose provider succeeds with an empty data list. -/
def emptyDataWorld : World :=
  { okWorld with provider := fun _ => .success { created := 7, data := [] } }

/-- A world in which directory creation fails. -/
def mkdirFailWorld : World :=
  { okWorld with mkdirFail := fun _ => some "Permission denied" }

/-- A result as the parser produces it in `okWorld`, before any download. -/
def okResult : ImageResult :=
  { generation_id := "gen-7", image_url := some "http://img/1.png", b64_json := none,
    revised_prompt := none, file_path := none, image_data := none, created := 7 }

/-- A result carrying no image url. -/
def noUrlResult : ImageResult :=
  { okResult with image_url := none }

lemma strTruthy_ne_none {o : Option String} (h : strTruthy o = true) : o ≠ none := by
  cases o <;> simp [strTruthy] at h ⊢

lemma pyStrip_isEmpty_of {s : String} (h : s.data.isEmpty = true) :
    (pyStrip s).data.isEmpty = true := by
  simp only [List.isEmpty_iff] at h
  simp [pyStrip, h]

lemma containsAux_append (n a b : List Char) : containsAux n (a ++ n ++ b) = true := by
  induction a with
  | nil =>
    cases n with
    | nil => cases b <;> simp [containsAux, List.isPrefixOf]
    | cons x xs =>
      simp only [List.nil_append, containsAux, Bool.or_eq_true]
      exact Or.inl (List.isPrefixOf_iff_prefix.mpr (List.prefix_append _ _))
  | cons c cs ih =>
    simp only [List.cons_append, containsAux, Bool.or_eq_true]
    exact Or.inr ih

lemma strContains_append (a q b : String) : strContains (a ++ q ++ b) q = true := by
  unfold strContains
  rw [String.data_append, String.data_append]
  exact containsAux_append q.data a.data b.data

lemma client_ok_inv {w : World} {prompt : String} {options : Option ImageOptions}
    {raw : RawResponse} {effs : List Effect}
    (h : ImageGenerationClient.generate_image w prompt options = (.ok raw, effs)) :
    w.provider (ImageGenerationClient._construct_payload prompt (options.getD defaultImageOptions)) =
        .success raw ∧
    effs = [.apiCall (ImageGenerationClient._construct_payload prompt (options.getD defaultImageOptions))] := by
  unfold ImageGenerationClient.generate_image at h
  dsimp only at h
  split at h
  · simp at h
  · split at h
    · simp at h
    · split at h <;> simp_all
      split at h <;> simp_all

lemma download_ok_inv {w : World} {result : ImageResult} {save_path : String}
    {r2 : ImageResult} {effs : List Effect}
    (h : ImageGenerationService.download_and_save_image w result save_path = (.ok (), r2, effs)) :
    ∃ url body, result.image_url = some url ∧ url.isEmpty = false ∧
      w.httpGet url = .ok body ∧
      w.mkdirFail (posixDirname save_path) = none ∧ w.writeFail save_path = none ∧
      r2 = { result with image_data := some body, file_path := some save_path } ∧
      effs = [.httpGet url, .mkdirp (posixDirname save_path), .fileWrite save_path body] := by
  unfold ImageGenerationService.download_and_save_image at h
  split at h
  · simp at h
  · rename_i htr
    split at h
    · simp at h
    · rename_i u url hurl
      split at h
      · simp at h
      · simp at h
      · rename_i hout body hget
        dsimp only at h
        split at h
        · simp at h
        · rename_i hmk
          split at h
          · simp at h
          · rename_i hwrite
            simp only [Prod.mk.injEq] at h
            refine ⟨url, body, hurl, ?_, hget, hmk, hwrite, h.2.1.symm, h.2.2.symm⟩
            rw [Bool.not_eq_false] at htr
            simpa [strTruthy, hurl] using htr

lemma parse_ok_populated {raw : RawResponse} {prompt : String} {r : ImageResult}
    (h : ImageResponseParser.parse raw prompt = .ok r) :
    r.image_url ≠ none ∨ r.b64_json ≠ none := by
  unfold ImageResponseParser.parse at h
  cases hdata : raw.data with
  | nil => rw [hdata] at h; simp at h
  | cons img rest =>
    rw [hdata] at h
    dsimp only at h
    split at h
    · simp at h
    · rename_i hcond
      simp only [Except.ok.injEq] at h
      subst h
      simp only [Bool.and_eq_true, decide_eq_true_eq, not_and] at hcond
      by_cases hu : img.url = none
      · exact Or.inr (by simpa using hcond hu)
      · exact Or.inl (by simpa using hu)

lemma generate_image_body_ok_inv {w : World} {prompt : String} {opts : ImageOptions}
    {auto_save : Bool} {save_dir : String} {r : ImageResult} {effs : List Effect}
    (h : ImageGenerationService.generate_image_body w prompt opts auto_save save_dir = (.ok r, effs)) :
    ∃ raw result0 effs1,
      ImageGenerationClient.generate_image w prompt (some opts) = (.ok raw, effs1) ∧
      ImageResponseParser.parse raw prompt = .ok result0 ∧
      ((auto_save && strTruthy result0.image_url) = false ∧ r = result0 ∧ effs = effs1 ∨
       (auto_save && strTruthy result0.image_url) = true ∧
         ∃ effs2, ImageGenerationService.download_and_save_image w result0
             (os_path_join save_dir
               (ImageGenerationService._generate_safe_filename prompt result0.generation_id w.now)) =
             (.ok (), r, effs2) ∧ effs = effs1 ++ effs2) := by
  unfold ImageGenerationService.generate_image_body at h
  split at h
  · simp at h
  · rename_i raw effs1 heqc
    split at h
    · simp at h
    · rename_i result0 heqp
      split at h
      · rename_i hcond
        dsimp only at h
        split at h
        · simp at h
        · rename_i r2 effs2 heqd
          simp only [Prod.mk.injEq, Except.ok.injEq] at h
          exact ⟨raw, result0, effs1, heqc, heqp,
            Or.inr ⟨hcond, effs2, by rw [h.1] at heqd; exact heqd, h.2.symm⟩⟩
      · rename_i hcond
        simp only [Prod.mk.injEq, Except.ok.injEq] at h
        exact ⟨raw, result0, effs1, heqc, heqp,
          Or.inl ⟨by simpa using hcond, h.1.symm, h.2.symm⟩⟩

lemma generate_image_ok_inv {w : World} {prompt : String} {options : Option ImageOptions}
    {auto_save : Bool} {save_dir : String} {r : ImageResult} {effs : List Effect}
    (h : ImageGenerationService.generate_image w prompt options auto_save save_dir = (.ok r, effs)) :
    ImageGenerationService.validate_prompt prompt = true ∧
    ImageGenerationService.generate_image_body w prompt (options.getD defaultImageOptions)
        auto_save save_dir = (.ok r, effs) := by
  unfold ImageGenerationService.generate_image at h
  split at h
  · simp at h
  · rename_i hv
    dsimp only at h
    cases hbody : ImageGenerationService.generate_image_body w prompt
        (options.getD defaultImageOptions) auto_save save_dir with
    | mk res effsb =>
      rw [hbody] at h
      cases res with
      | error e => simp [Except.mapError] at h
      | ok v =>
        simp only [Except.mapError, Prod.mk.injEq, Except.ok.injEq] at h
        refine ⟨by simpa using hv, ?_⟩
        rw [h.1, h.2]


/- ===== Claim theorems ===== -/

/-- C3: validate_prompt returns false exactly when the prompt is empty or
whitespace-only after trimming, or longer than 4000 characters, or
contains one of the fixed denylisted substrings case-insensitively; and
every prompt on which it is false is rejected by
Service.generate_image with an input-validation ValueError and an empty
effect trace, hence before any network call. -/
theorem validate_prompt_rejects_iff (prompt : String) :
    (ImageGenerationService.validate_prompt prompt = false ↔
      ((pyStrip prompt).data.isEmpty = true ∨ prompt.length > 4000 ∨
        ∃ term ∈ problematic_terms, strContains (pyLower prompt) term = true))
    ∧ (∀ (w : World) (options : Option ImageOptions) (auto_save : Bool) (save_dir : String),
        ImageGenerationService.validate_prompt prompt = false →
        ImageGenerationService.generate_image w prompt options auto_save save_dir =
          (.error (.valueError "Invalid prompt: must be non-empty and under 4000 characters"), [])) := by
  constructor
  · unfold ImageGenerationService.validate_prompt
    split_ifs with h1 h2 h3 h4
    · exact iff_of_true rfl (Or.inl (pyStrip_isEmpty_of h1))
    · exact iff_of_true rfl (Or.inl h2)
    · exact iff_of_true rfl (Or.inr (Or.inl h3))
    · refine iff_of_true rfl (Or.inr (Or.inr ?_))
      simpa using h4
    · refine iff_of_false (by simp) ?_
      rintro (hc | hc | ⟨term, hterm, hc⟩)
      · exact h2 hc
      · exact h3 hc
      · exact h4 (by simp only [List.any_eq_true]; exact ⟨term, hterm, hc⟩)
  · intro w options auto_save save_dir h
    simp [ImageGenerationService.generate_image, h]

/-- Witness for C3 at the empty prompt: validation fails and the service
rejects with no effect performed. -/
theorem validate_prompt_rejects_iff_witness :
    ImageGenerationService.generate_image okWorld "" none true "generated_images" =
      (.error (.valueError "Invalid prompt: must be non-empty and under 4000 characters"), []) :=
  (validate_prompt_rejects_iff "").2 okWorld none true "generated_images" (by decide)

/-- C4: on a prompt that passes the client checks, every provider failure
is mapped in order of the except clauses: authentication to
AUTHENTICATION_ERROR, rate limit to RATE_LIMIT_ERROR, a generic API
failure whose lowered message contains "content policy" or "safety" to
CONTENT_POLICY_ERROR, any other generic API failure to API_ERROR, and any
other exception to UNKNOWN_ERROR; each mapped error stores the original
error text under original_error in its details. -/
theorem client_error_mapping (w : World) (prompt : String) (options : Option ImageOptions)
    (hne : (prompt.data.isEmpty || (pyStrip prompt).data.isEmpty) = false)
    (hlen : ¬ prompt.length > 4000) :
    (∀ msg, w.provider (ImageGenerationClient._construct_payload prompt
        (options.getD defaultImageOptions)) = .authFail msg →
      ImageGenerationClient.generate_image w prompt options =
        (.error (.imageError ⟨"AUTHENTICATION_ERROR", "Invalid API key or authentication failed", [("original_error", msg)]⟩),
         [.apiCall (ImageGenerationClient._construct_payload prompt
            (options.getD defaultImageOptions))]))
  ∧ (∀ msg, w.provider (ImageGenerationClient._construct_payload prompt
        (options.getD defaultImageOptions)) = .rateLimitFail msg →
      ImageGenerationClient.generate_image w prompt options =
        (.error (.imageError ⟨"RATE_LIMIT_ERROR", "API rate limit exceeded", [("original_error", msg)]⟩),
         [.apiCall (ImageGenerationClient._construct_payload prompt
            (options.getD defaultImageOptions))]))
  ∧ (∀ msg, w.provider (ImageGenerationClient._construct_payload prompt
        (options.getD defaultImageOptions)) = .apiFail msg →
      (strContains (pyLower msg) "content policy" || strContains (pyLower msg) "safety") = true →
      ImageGenerationClient.generate_image w prompt options =
        (.error (.imageError ⟨"CONTENT_POLICY_ERROR", "Prompt violates OpenAI\'s content policy", [("original_error", msg)]⟩),
         [.apiCall (ImageGenerationClient._construct_payload prompt
            (options.getD defaultImageOptions))]))
  ∧ (∀ msg, w.provider (ImageGenerationClient._construct_payload prompt
        (options.getD defaultImageOptions)) = .apiFail msg →
      (strContains (pyLower msg) "content policy" || strContains (pyLower msg) "safety") = false →
      ImageGenerationClient.generate_image w prompt options =
        (.error (.imageError ⟨"API_ERROR", "API request failed: " ++ msg, [("original_error", msg)]⟩),
         [.apiCall (ImageGenerationClient._construct_payload prompt
            (options.getD defaultImageOptions))]))
  ∧ (∀ msg, w.provider (ImageGenerationClient._construct_payload prompt
        (options.getD defaultImageOptions)) = .unexpectedFail msg →
      ImageGenerationClient.generate_image w prompt options =
        (.error (.imageError ⟨"UNKNOWN_ERROR", "Unexpected error: " ++ msg, [("original_error", msg)]⟩),
         [.apiCall (ImageGenerationClient._construct_payload prompt
            (options.getD defaultImageOptions))])) := by
  refine ⟨?_, ?_, ?_, ?_, ?_⟩
  · intro msg h
    simp [ImageGenerationClient.generate_image, hne, hlen, h]
  · intro msg h
    simp [ImageGenerationClient.generate_image, hne, hlen, h]
  · intro msg h hc
    simp [ImageGenerationClient.generate_image, hne, hlen, h, hc]
  · intro msg h hc
    simp [ImageGenerationClient.generate_image, hne, hlen, h, hc]
  · intro msg h
    simp [ImageGenerationClient.generate_image, hne, hlen, h]

/-- Witness for C4: a provider authentication failure on the prompt
"cat" maps to AUTHENTICATION_ERROR with the original text in details. -/
theorem client_error_mapping_witness :
    ImageGenerationClient.generate_image authFailWorld "cat" none =
      (.error (.imageError ⟨"AUTHENTICATION_ERROR", "Invalid API key or authentication failed", [("original_error", "bad key")]⟩),
       [.apiCall (ImageGenerationClient._construct_payload "cat" defaultImageOptions)]) :=
  (client_error_mapping authFailWorld "cat" none (by decide) (by decide)).1 "bad key" rfl

/-- C5: the payload carries a quality or style key only when the model is
dall-e-3 and the field is set on the options; for any other model the
payload never carries these keys, whatever the options hold. -/
theorem payload_quality_style_gating (prompt : String) (options : ImageOptions) :
    ((ImageGenerationClient._construct_payload prompt options).quality ≠ none →
       options.model = "dall-e-3" ∧ options.quality ≠ none)
  ∧ ((ImageGenerationClient._construct_payload prompt options).style ≠ none →
       options.model = "dall-e-3" ∧ options.style ≠ none)
  ∧ (options.model ≠ "dall-e-3" →
       (ImageGenerationClient._construct_payload prompt options).quality = none ∧
       (ImageGenerationClient._construct_payload prompt options).style = none) := by
  refine ⟨?_, ?_, ?_⟩
  · intro h
    unfold ImageGenerationClient._construct_payload at h
    dsimp only at h
    split at h
    · rename_i hc
      simp only [Bool.and_eq_true, decide_eq_true_eq] at hc
      exact ⟨hc.1, h⟩
    · exact absurd rfl h
  · intro h
    unfold ImageGenerationClient._construct_payload at h
    dsimp only at h
    split at h
    · rename_i hc
      simp only [Bool.and_eq_true, decide_eq_true_eq] at hc
      exact ⟨hc.1, h⟩
    · exact absurd rfl h
  · intro hm
    constructor <;> simp [ImageGenerationClient._construct_payload, hm]

/-- Witness for C5 at dall-e-2 options that do carry quality and style:
the payload still omits both keys. -/
theorem payload_quality_style_gating_witness :
    (ImageGenerationClient._construct_payload "p" ⟨"dall-e-2", "512x512", "url", 1, some "hd", some "vivid"⟩).quality = none ∧
    (ImageGenerationClient._construct_payload "p" ⟨"dall-e-2", "512x512", "url", 1, some "hd", some "vivid"⟩).style = none :=
  (payload_quality_style_gating "p" _).2.2 (by decide)

/-- C9: the quality factory returns the documented combinations for
standard, high and fast (fields the call leaves out stay at the dataclass
defaults), and rejects any other level with a ValueError whose message
names the unsupported value. -/
theorem create_options_for_quality_spec :
    (ImageGenerationService.create_options_for_quality "standard" =
      .ok ⟨"dall-e-3", "1024x1024", defaultImageOptions.response_format, defaultImageOptions.n, some "standard", some "natural"⟩)
  ∧ (ImageGenerationService.create_options_for_quality "high" =
      .ok ⟨"dall-e-3", "1024x1024", defaultImageOptions.response_format, defaultImageOptions.n, some "hd", some "vivid"⟩)
  ∧ (ImageGenerationService.create_options_for_quality "fast" =
      .ok ⟨"dall-e-2", "512x512", defaultImageOptions.response_format, defaultImageOptions.n, none, none⟩)
  ∧ (∀ q : String, q ≠ "standard" → q ≠ "high" → q ≠ "fast" →
      ImageGenerationService.create_options_for_quality q =
        .error (.valueError ("Unknown quality level: " ++ q ++ ". Use 'standard', 'high', or 'fast'")) ∧
      strContains ("Unknown quality level: " ++ q ++ ". Use 'standard', 'high', or 'fast'") q = true) := by
  refine ⟨rfl, rfl, rfl, ?_⟩
  intro q h1 h2 h3
  constructor
  · simp [ImageGenerationService.create_options_for_quality, h1, h2, h3]
  · exact strContains_append "Unknown quality level: " q ". Use 'standard', 'high', or 'fast'"

/-- Witness for C9 at the unsupported level "ultra". -/
theorem create_options_for_quality_spec_witness :
    ImageGenerationService.create_options_for_quality "ultra" =
      .error (.valueError "Unknown quality level: ultra. Use 'standard', 'high', or 'fast'") :=
  (create_options_for_quality_spec.2.2.2 "ultra" (by decide) (by decide) (by decide)).1

/-- C7: download_and_save_image raises DOWNLOAD_ERROR with no effect when
the url is absent; raises DOWNLOAD_ERROR on a non-success status or a
network failure of the single GET; raises SAVE_ERROR (a distinct code) when
directory creation or the file write fails; and on success sets the byte
payload and file path fields of the result in place. -/
theorem download_and_save_error_paths (w : World) (result : ImageResult) (save_path : String) :
    (result.image_url = none →
       ImageGenerationService.download_and_save_image w result save_path =
         (.error ⟨"DOWNLOAD_ERROR", "No image URL available for download",
            [("result", result.describe)]⟩, result, []))
  ∧ (∀ url msg, result.image_url = some url → url.isEmpty = false →
       (w.httpGet url = .badStatus msg ∨ w.httpGet url = .netFail msg) →
       ImageGenerationService.download_and_save_image w result save_path =
         (.error ⟨"DOWNLOAD_ERROR", "Failed to download image: " ++ msg,
            [("url", url), ("error", msg)]⟩, result, [.httpGet url]))
  ∧ (∀ url body msg, result.image_url = some url → url.isEmpty = false →
       w.httpGet url = .ok body →
       ((w.mkdirFail (posixDirname save_path) = some msg →
          (ImageGenerationService.download_and_save_image w result save_path).1 =
            .error ⟨"SAVE_ERROR", "Failed to save image: " ++ msg,
              [("save_path", save_path), ("error", msg)]⟩)
       ∧ (w.mkdirFail (posixDirname save_path) = none → w.writeFail save_path = some msg →
          (ImageGenerationService.download_and_save_image w result save_path).1 =
            .error ⟨"SAVE_ERROR", "Failed to save image: " ++ msg,
              [("save_path", save_path), ("error", msg)]⟩)))
  ∧ (∀ url body, result.image_url = some url → url.isEmpty = false →
       w.httpGet url = .ok body →
       w.mkdirFail (posixDirname save_path) = none → w.writeFail save_path = none →
       ImageGenerationService.download_and_save_image w result save_path =
         (.ok (), { result with image_data := some body, file_path := some save_path },
          [.httpGet url, .mkdirp (posixDirname save_path), .fileWrite save_path body]))
  ∧ ("SAVE_ERROR" : String) ≠ "DOWNLOAD_ERROR" := by
  refine ⟨?_, ?_, ?_, ?_, by decide⟩
  · intro hurl
    simp [ImageGenerationService.download_and_save_image, hurl, strTruthy]
  · rintro url msg hurl hne (hget | hget) <;>
      simp [ImageGenerationService.download_and_save_image, hurl, hne, strTruthy, hget]
  · intro url body msg hurl hne hget
    constructor
    · intro hmk
      simp [ImageGenerationService.download_and_save_image, hurl, hne, strTruthy, hget, hmk]
    · intro hmk hwrite
      simp [ImageGenerationService.download_and_save_image, hurl, hne, strTruthy, hget, hmk, hwrite]
  · intro url body hurl hne hget hmk hwrite
    simp [ImageGenerationService.download_and_save_image, hurl, hne, strTruthy, hget, hmk, hwrite]

/-- Witness for C7 at a result with no url: DOWNLOAD_ERROR and an empty
effect trace. -/
theorem download_and_save_error_paths_witness :
    ImageGenerationService.download_and_save_image okWorld noUrlResult "out/pic.png" =
      (.error ⟨"DOWNLOAD_ERROR", "No image URL available for download",
         [("result", noUrlResult.describe)]⟩, noUrlResult, []) :=
  (download_and_save_error_paths okWorld noUrlResult "out/pic.png").1 rfl

/-- C10: when the download succeeded but the directory creation or the
file write fails, the call raises SAVE_ERROR and the passed result has
already been mutated: image_data holds the downloaded bytes while
file_path is unchanged, so the operation is not atomic on error. -/
theorem save_error_mutation_not_atomic (w : World) (result : ImageResult)
    (save_path url : String) (body : List Nat) (msg : String)
    (hurl : result.image_url = some url) (hne : url.isEmpty = false)
    (hget : w.httpGet url = .ok body) :
    (w.mkdirFail (posixDirname save_path) = some msg →
       ImageGenerationService.download_and_save_image w result save_path =
         (.error ⟨"SAVE_ERROR", "Failed to save image: " ++ msg,
            [("save_path", save_path), ("error", msg)]⟩,
          { result with image_data := some body }, [.httpGet url]))
  ∧ (w.mkdirFail (posixDirname save_path) = none → w.writeFail save_path = some msg →
       ImageGenerationService.download_and_save_image w result save_path =
         (.error ⟨"SAVE_ERROR", "Failed to save image: " ++ msg,
            [("save_path", save_path), ("error", msg)]⟩,
          { result with image_data := some body }, [.httpGet url, .mkdirp (posixDirname save_path)]))
  ∧ ({ result with image_data := some body } : ImageResult).file_path = result.file_path := by
  refine ⟨?_, ?_, rfl⟩
  · intro hmk
    simp [ImageGenerationService.download_and_save_image, hurl, hne, strTruthy, hget, hmk]
  · intro hmk hwrite
    simp [ImageGenerationService.download_and_save_image, hurl, hne, strTruthy, hget, hmk, hwrite]

/-- Witness for C10: in a world whose directory creation fails, the
returned object state holds the downloaded bytes and an unchanged
file_path beside the SAVE_ERROR. -/
theorem save_error_mutation_not_atomic_witness :
    ImageGenerationService.download_and_save_image mkdirFailWorld okResult "out/pic.png" =
      (.error ⟨"SAVE_ERROR", "Failed to save image: Permission denied",
         [("save_path", "out/pic.png"), ("error", "Permission denied")]⟩,
       { okResult with image_data := some [137, 80, 78, 71] }, [.httpGet "http://img/1.png"]) :=
  (save_error_mutation_not_atomic mkdirFailWorld okResult "out/pic.png" "http://img/1.png"
    [137, 80, 78, 71] "Permission denied" rfl (by decide) rfl).1 rfl

/-- C8: after validation, a failure inside generate_image propagates per
the except clauses: a structured ImageError reaches the caller unchanged
(same code, message and details), and any other failure is wrapped as
GENERATION_FAILED with the original text preserved in message and
details. -/
theorem service_error_propagation (w : World) (prompt : String)
    (options : Option ImageOptions) (auto_save : Bool) (save_dir : String)
    (hv : ImageGenerationService.validate_prompt prompt = true) :
    ∀ e effs, ImageGenerationService.generate_image_body w prompt
        (options.getD defaultImageOptions) auto_save save_dir = (.error e, effs) →
      (∀ ie, e = .imageError ie →
        ImageGenerationService.generate_image w prompt options auto_save save_dir =
          (.error (.imageError ie), effs))
    ∧ (∀ msg, e = .valueError msg →
        ImageGenerationService.generate_image w prompt options auto_save save_dir =
          (.error (.imageError ⟨"GENERATION_FAILED", "Image generation failed: " ++ msg,
             [("original_error", msg)]⟩), effs)) := by
  intro e effs hbody
  constructor
  · intro ie he
    subst he
    simp [ImageGenerationService.generate_image, hv, hbody, wrapServiceErr, Except.mapError]
  · intro msg he
    subst he
    simp [ImageGenerationService.generate_image, hv, hbody, wrapServiceErr, Except.mapError]

/-- Witness for C8: a provider response with no image entry makes the
parse step fail with an ordinary exception, which the service wraps as
GENERATION_FAILED preserving the original text. -/
theorem service_error_propagation_witness :
    ImageGenerationService.generate_image emptyDataWorld "cat" none true "generated_images" =
      (.error (.imageError ⟨"GENERATION_FAILED",
         "Image generation failed: No image data in response",
         [("original_error", "No image data in response")]⟩),
       [.apiCall (ImageGenerationClient._construct_payload "cat" defaultImageOptions)]) :=
  (service_error_propagation emptyDataWorld "cat" none true "generated_images" (by decide)
      (.valueError "No image data in response")
      [.apiCall (ImageGenerationClient._construct_payload "cat" defaultImageOptions)]
      rfl).2 "No image data in response" rfl

/-- C6: every ImageResult the service returns has image_url or the base64
payload populated; and when the provider response lets neither be
populated, a call that passed validation errors with a structured
ImageError rather than returning a value. -/
theorem service_result_populated_invariant (w : World) (prompt : String)
    (options : Option ImageOptions) (auto_save : Bool) (save_dir : String) :
    (∀ r effs, ImageGenerationService.generate_image w prompt options auto_save save_dir =
        (.ok r, effs) → r.image_url ≠ none ∨ r.b64_json ≠ none)
  ∧ (ImageGenerationService.validate_prompt prompt = true →
     ∀ raw effs1, ImageGenerationClient.generate_image w prompt
         (some (options.getD defaultImageOptions)) = (.ok raw, effs1) →
       (raw.data = [] ∨ ∃ img rest, raw.data = img :: rest ∧ img.url = none ∧ img.b64_json = none) →
       ∃ ie effs2, ImageGenerationService.generate_image w prompt options auto_save save_dir =
         (.error (.imageError ie), effs2)) := by
  constructor
  · intro r effs h
    obtain ⟨hv, hbody⟩ := generate_image_ok_inv h
    obtain ⟨raw, result0, effs1, hc, hp, hrest⟩ := generate_image_body_ok_inv hbody
    rcases hrest with ⟨_, hr, _⟩ | ⟨_, effs2, hd, _⟩
    · subst hr
      exact parse_ok_populated hp
    · obtain ⟨url, body, _, _, _, _, _, hr2, _⟩ := download_ok_inv hd
      subst hr2
      simpa using parse_ok_populated hp
  · intro hv raw effs1 hc hbad
    have hp : ∃ msg, ImageResponseParser.parse raw prompt = .error (.valueError msg) := by
      rcases hbad with h0 | ⟨img, rest, h0, hu, hb⟩
      · refine ⟨"No image data in response", ?_⟩
        unfold ImageResponseParser.parse
        rw [h0]
      · refine ⟨"Response contains neither url nor b64_json", ?_⟩
        unfold ImageResponseParser.parse
        rw [h0]
        simp [hu, hb]
    obtain ⟨msg, hpmsg⟩ := hp
    have hbody : ImageGenerationService.generate_image_body w prompt
        (options.getD defaultImageOptions) auto_save save_dir = (.error (.valueError msg), effs1) := by
      simp [ImageGenerationService.generate_image_body, hc, hpmsg]
    refine ⟨⟨"GENERATION_FAILED", "Image generation failed: " ++ msg,
      [("original_error", msg)]⟩, effs1, ?_⟩
    simp [ImageGenerationService.generate_image, hv, hbody, wrapServiceErr, Except.mapError]

/-- Witness for C6: in a world whose provider returns an empty data list,
the service errors with a structured ImageError instead of returning an
empty-success result. -/
theorem service_result_populated_invariant_witness :
    ∃ ie effs2, ImageGenerationService.generate_image emptyDataWorld "cat" none true "generated_images" =
      (.error (.imageError ie), effs2) :=
  (service_result_populated_invariant emptyDataWorld "cat" none true "generated_images").2
    (by decide) { created := 7, data := [] }
    [.apiCall (ImageGenerationClient._construct_payload "cat" defaultImageOptions)]
    rfl (Or.inl rfl)

/-- C2 counterexample: at the prompt "a_b" the source keeps the underscore
(the regex class of word characters keeps letters, digits and the
underscore), while the rule as claimed, stripping every character that is
not alphanumeric, whitespace, or hyphen, would drop it: the two filenames
differ at this input. -/
theorem safe_filename_counterexample :
    ImageGenerationService._generate_safe_filename "a_b" "gen-abc123" ts2025 =
        "a_b_20250101_120000_gen-abc123.png"
  ∧ claimed_safe_filename "a_b" "gen-abc123" ts2025 =
        "ab_20250101_120000_gen-abc123.png"
  ∧ ImageGenerationService._generate_safe_filename "a_b" "gen-abc123" ts2025 ≠
        claimed_safe_filename "a_b" "gen-abc123" ts2025 :=
  ⟨by decide, by decide, by decide⟩

/-- C2 amended: the generated filename follows the claimed pipeline with
the kept class widened to word characters (letters, digits, underscore)
plus whitespace and hyphen; the worked example of the claim holds as
stated. -/
theorem safe_filename_amended (prompt generation_id : String) (now : PyDateTime) :
    ImageGenerationService._generate_safe_filename prompt generation_id now =
        amended_safe_filename prompt generation_id now
  ∧ ImageGenerationService._generate_safe_filename "A cat wearing a space helmet!" "gen-abc123" ts2025 =
        "a_cat_wearing_a_space_helmet_20250101_120000_gen-abc123.png" := by
  constructor
  · unfold ImageGenerationService._generate_safe_filename amended_safe_filename
    dsimp only
    have hf : (prompt.data.map Char.toLower).filter
          (fun c => isWordChar c || pyIsSpace c || c = '-') =
        (prompt.data.map Char.toLower).filter
          (fun c => c.isAlphanum || c = '_' || pyIsSpace c || c = '-') := by
      apply List.filter_congr
      intro c _
      simp [isWordChar, Bool.or_assoc]
    rw [hf]
  · decide

/-- C1 counterexample: at a world where everything succeeds, a run of
generate_and_save writes two files and the first lies under the default
directory generated_images, so the claim that the generation step runs
without auto-saving under a default path and that exactly one
download-and-save happens (to the given save_path) fails at this input. -/
theorem generate_and_save_counterexample :
    savedPaths (ImageGenerationService.generate_and_save okWorld "cat" "out/pic.png" none).2 =
        ["generated_images/cat_20250101_120000_gen-7.png", "out/pic.png"]
  ∧ savedPaths (ImageGenerationService.generate_and_save okWorld "cat" "out/pic.png" none).2 ≠
        ["out/pic.png"] :=
  ⟨by decide, by decide⟩

/-- C1 amended: generate_and_save is generate_image with auto-save enabled
under the default directory generated_images followed by an explicit
download-and-save to the given path; its outcome and effects equal that
composition (errors of either step propagate), and whenever the generation
step succeeds with a result carrying an image url, its own trace already
holds exactly one file write, under the default directory, before the
final step writes to save_path. -/
theorem generate_and_save_amended (w : World) (prompt save_path : String)
    (options : Option ImageOptions) :
    (∀ e effs, ImageGenerationService.generate_image w prompt options true "generated_images" =
        (.error e, effs) →
      ImageGenerationService.generate_and_save w prompt save_path options = (.error e, effs))
  ∧ (∀ r effs, ImageGenerationService.generate_image w prompt options true "generated_images" =
        (.ok r, effs) →
      (∀ ie r2 effs2, ImageGenerationService.download_and_save_image w r save_path =
          (.error ie, r2, effs2) →
        ImageGenerationService.generate_and_save w prompt save_path options =
          (.error (.imageError ie), effs ++ effs2))
      ∧ (∀ r2 effs2, ImageGenerationService.download_and_save_image w r save_path =
          (.ok (), r2, effs2) →
        ImageGenerationService.generate_and_save w prompt save_path options =
          (.ok r2, effs ++ effs2)))
  ∧ (∀ r effs, ImageGenerationService.generate_image w prompt options true "generated_images" =
        (.ok r, effs) → strTruthy r.image_url = true →
      ∃ fname data, savedPaths effs = [os_path_join "generated_images" fname] ∧
        Effect.fileWrite (os_path_join "generated_images" fname) data ∈ effs) := by
  refine ⟨?_, ?_, ?_⟩
  · intro e effs h
    simp [ImageGenerationService.generate_and_save, h]
  · intro r effs h
    constructor
    · intro ie r2 effs2 hd
      simp [ImageGenerationService.generate_and_save, h, hd]
    · intro r2 effs2 hd
      simp [ImageGenerationService.generate_and_save, h, hd]
  · intro r effs h htr
    obtain ⟨hv, hbody⟩ := generate_image_ok_inv h
    obtain ⟨raw, result0, effs1, hc, hp, hrest⟩ := generate_image_body_ok_inv hbody
    obtain ⟨hpv, heffs1⟩ := client_ok_inv hc
    rcases hrest with ⟨hcond, hr, heff⟩ | ⟨hcond, effs2, hd, heff⟩
    · subst hr
      simp only [Bool.true_and] at hcond
      rw [htr] at hcond
      exact absurd hcond (by simp)
    · obtain ⟨url, body, hu, hun, hget, hmk, hwr, hr2, heffs2⟩ := download_ok_inv hd
      refine ⟨ImageGenerationService._generate_safe_filename prompt result0.generation_id w.now,
        body, ?_, ?_⟩
      · rw [heff, heffs1, heffs2]
        simp [savedPaths]
      · rw [heff, heffs1, heffs2]
        simp

/-- Witness for C1 amended at the all-success world: the composed run
returns the twice-saved result and the full seven-effect trace. -/
theorem generate_and_save_amended_witness :
    ImageGenerationService.generate_and_save okWorld "cat" "out/pic.png" none =
      (.ok { generation_id := "gen-7", image_url := some "http://img/1.png", b64_json := none,
             revised_prompt := none, file_path := some "out/pic.png",
             image_data := some [137, 80, 78, 71], created := 7 },
       [.apiCall (ImageGenerationClient._construct_payload "cat" defaultImageOptions),
        .httpGet "http://img/1.png", .mkdirp "generated_images",
        .fileWrite "generated_images/cat_20250101_120000_gen-7.png" [137, 80, 78, 71],
        .httpGet "http://img/1.png", .mkdirp "out",
        .fileWrite "out/pic.png" [137, 80, 78, 71]]) :=
  ((generate_and_save_amended okWorld "cat" "out/pic.png" none).2.1
    { generation_id := "gen-7", image_url := some "http://img/1.png", b64_json := none,
      revised_prompt := none,
      file_path := some "generated_images/cat_20250101_120000_gen-7.png",
      image_data := some [137, 80, 78, 71], created := 7 }
    [.apiCall (ImageGenerationClient._construct_payload "cat" defaultImageOptions),
     .httpGet "http://img/1.png", .mkdirp "generated_images",
     .fileWrite "generated_images/cat_20250101_120000_gen-7.png" [137, 80, 78, 71]]
    rfl).2
    { generation_id := "gen-7", image_url := some "http://img/1.png", b64_json := none,
      revised_prompt := none, file_path := some "out/pic.png",
      image_data := some [137, 80, 78, 71], created := 7 }
    [.httpGet "http://img/1.png", .mkdirp "out", .fileWrite "out/pic.png" [137, 80, 78, 71]]
    rfl
